import Mathlib

/-!
Verification of the bike-sharing dashboard pipeline (`src/dashboard.py`).

The script loads two tables (hourly and daily rental records), maps integer
season and weather codes to labels, derives a year from the date column,
filters both tables by three user-chosen selection sets, and computes scalar
means, grouped means and a pivot table of means.

Embedding choices:
* a table is a `List` of row structures; the pandas mutation of the `season`
  and `weathersit` columns and the derivation of `year` are modelled as a
  per-row transformation from a raw row to a prepared row;
* mapped labels are `Option String` (`none` models the NaN a pandas `map`
  produces for an unmapped code);
* a pandas `mean` is `Option ℚ`: `none` models the NaN returned for the mean
  of an empty column, otherwise `some (sum / length)`;
* `isin` on the label columns compares `Option String` values for equality,
  mirroring pandas `isin`, which does match NaN against NaN in the value set;
* `groupby`/`pivot_table` accumulate rows into key buckets left to right
  (value order inside a bucket follows row order, as in pandas), and the
  aggregated cell is looked up by key.
-/

namespace Dashboard

/-- A row of `hour.csv` as loaded, before the label mapping and year
derivation (integer `season` and `weathersit` codes, date string). -/
structure RawHourRow where
  dteday : String
  hr : Nat
  season : Nat
  weathersit : Nat
  workingday : Nat
  weekday : Nat
  casual : Nat
  registered : Nat
  cnt : Nat
deriving DecidableEq, Repr

/-- A row of `day.csv` as loaded (no hour column). -/
structure RawDayRow where
  dteday : String
  season : Nat
  weathersit : Nat
  workingday : Nat
  weekday : Nat
  casual : Nat
  registered : Nat
  cnt : Nat
deriving DecidableEq, Repr

/-- An hourly row after the in-place column updates of `dashboard.py`
lines 27-34: `season` and `weathersit` hold the mapped labels (`none` for an
unmapped code) and `year` holds the year extracted from `dteday`. -/
structure HourRow where
  dteday : String
  hr : Nat
  season : Option String
  weathersit : Option String
  workingday : Nat
  weekday : Nat
  casual : Nat
  registered : Nat
  cnt : Nat
  year : Nat
deriving DecidableEq, Repr

/-- A daily row after the same column updates. -/
structure DayRow where
  dteday : String
  season : Option String
  weathersit : Option String
  workingday : Nat
  weekday : Nat
  casual : Nat
  registered : Nat
  cnt : Nat
  year : Nat
deriving DecidableEq, Repr

/-- `season_mapping = {1: 'Spring', 2: 'Summer', 3: 'Fall', 4: 'Winter'}`;
applying a pandas `map` with this dict sends every other code to NaN,
modelled as `none`. -/
def season_mapping (c : Nat) : Option String :=
  match c with
  | 1 => some "Spring"
  | 2 => some "Summer"
  | 3 => some "Fall"
  | 4 => some "Winter"
  | _ => none

/-- `weather_mapping` dict of `dashboard.py` lines 20-25. -/
def weather_mapping (c : Nat) : Option String :=
  match c with
  | 1 => some "Clear/Few Clouds"
  | 2 => some "Mist/Cloudy"
  | 3 => some "Light Snow/Rain"
  | 4 => some "Heavy Rain/Snow"
  | _ => none

/-- Year extraction `pd.to_datetime(df['dteday']).dt.year` for ISO dates
`YYYY-MM-DD`: the leading four digits of the date string. -/
def yearOf (s : String) : Nat :=
  ((s.take 4).toNat?).getD 0

/-- The per-row effect of lines 27-28 and 33 on the hourly table: map the
season and weather codes to labels and derive the year. -/
def prepareHourRow (r : RawHourRow) : HourRow :=
  { dteday := r.dteday, hr := r.hr, season := season_mapping r.season,
    weathersit := weather_mapping r.weathersit, workingday := r.workingday,
    weekday := r.weekday, casual := r.casual, registered := r.registered,
    cnt := r.cnt, year := yearOf r.dteday }

/-- The per-row effect of lines 29-30 and 34 on the daily table. -/
def prepareDayRow (r : RawDayRow) : DayRow :=
  { dteday := r.dteday, season := season_mapping r.season,
    weathersit := weather_mapping r.weathersit, workingday := r.workingday,
    weekday := r.weekday, casual := r.casual, registered := r.registered,
    cnt := r.cnt, year := yearOf r.dteday }

/-- The whole label-mapping / year-derivation stage on the hourly table. -/
def prepare_hour_data (t : List RawHourRow) : List HourRow :=
  t.map prepareHourRow

/-- The whole label-mapping / year-derivation stage on the daily table. -/
def prepare_day_data (t : List RawDayRow) : List DayRow :=
  t.map prepareDayRow

/-- `filtered_hour_data` (lines 61-65): rows whose season label, weather
label and year each belong to the corresponding selection set. -/
def filtered_hour_data (selected_season selected_weather : List (Option String))
    (selected_year : List Nat) (hour_data : List HourRow) : List HourRow :=
  hour_data.filter fun r =>
    decide (r.season ∈ selected_season ∧ r.weathersit ∈ selected_weather ∧
      r.year ∈ selected_year)

/-- `filtered_day_data` (lines 66-70). -/
def filtered_day_data (selected_season selected_weather : List (Option String))
    (selected_year : List Nat) (day_data : List DayRow) : List DayRow :=
  day_data.filter fun r =>
    decide (r.season ∈ selected_season ∧ r.weathersit ∈ selected_weather ∧
      r.year ∈ selected_year)

/-- Pandas `Series.mean`: NaN (here `none`) on an empty column, otherwise
the sum divided by the length. -/
def seriesMean (xs : List ℚ) : Option ℚ :=
  if xs.length = 0 then none else some (xs.sum / xs.length)

/-- `avg_rentals_per_day = filtered_day_data['cnt'].mean()` (line 73). -/
def avg_rentals_per_day (t : List DayRow) : Option ℚ :=
  seriesMean (t.map fun r => (r.cnt : ℚ))

/-- `avg_rentals_per_hour = filtered_hour_data['cnt'].mean()` (line 74). -/
def avg_rentals_per_hour (t : List HourRow) : Option ℚ :=
  seriesMean (t.map fun r => (r.cnt : ℚ))

/-- `avg_users_per_day = filtered_day_data[['casual','registered']]
.sum(axis=1).mean()` (line 75). -/
def avg_users_per_day (t : List DayRow) : Option ℚ :=
  seriesMean (t.map fun r => ((r.casual : ℚ) + (r.registered : ℚ)))

/-- `avg_users_per_hour` (line 76), same row-wise sum on the hourly table. -/
def avg_users_per_hour (t : List HourRow) : Option ℚ :=
  seriesMean (t.map fun r => ((r.casual : ℚ) + (r.registered : ℚ)))

/-- One step of a pandas `groupby` accumulation: append the value `v` to the
bucket of key `k`, or open a new bucket at the end. -/
def insertBucket {κ : Type} [DecidableEq κ] :
    List (κ × List ℚ) → κ → ℚ → List (κ × List ℚ)
  | [], k, v => [(k, [v])]
  | (k', vs) :: rest, k, v =>
    if k' = k then (k', vs ++ [v]) :: rest else (k', vs) :: insertBucket rest k v

/-- Bucket lookup by key. -/
def lookupBucket {κ : Type} [DecidableEq κ] :
    List (κ × List ℚ) → κ → Option (List ℚ)
  | [], _ => none
  | (k', vs) :: rest, k => if k' = k then some vs else lookupBucket rest k

/-- `t.groupby(key)[col]` modelled operationally: fold the rows left to
right into key buckets, keeping row order inside every bucket. -/
def groupVals {α κ : Type} [DecidableEq κ] (key : α → κ) (val : α → ℚ)
    (t : List α) : List (κ × List ℚ) :=
  t.foldl (fun b r => insertBucket b (key r) (val r)) []

/-- `t.groupby(key)[col].mean()` read at key `k`: the mean of the bucket of
`k`, `none` when no row has that key. -/
def groupMeanAt {α κ : Type} [DecidableEq κ] (key : α → κ) (val : α → ℚ)
    (t : List α) (k : κ) : Option ℚ :=
  (lookupBucket (groupVals key val t) k).bind seriesMean

/-- `season_hourly = filtered_hour_data.groupby("season")["cnt"].mean()`
(line 102), read at one season label. -/
def season_hourly (t : List HourRow) (s : Option String) : Option ℚ :=
  groupMeanAt (fun r => r.season) (fun r => (r.cnt : ℚ)) t s

/-- The grouped-by-season mean of `cnt` over the daily table (the aggregation
behind the daily season bar chart, line 95). -/
def season_daily (t : List DayRow) (s : Option String) : Option ℚ :=
  groupMeanAt (fun r => r.season) (fun r => (r.cnt : ℚ)) t s

/-- `pivot_data = filtered_hour_data.pivot_table(index='hr',
columns='weekday', values='cnt', aggfunc='mean')` (line 143), read at cell
`(h, w)`: the mean of `cnt` over the bucket of key `(hr, weekday)`, NaN
(`none`) when the cell is empty. -/
def pivot_data (t : List HourRow) (h w : Nat) : Option ℚ :=
  groupMeanAt (fun r => (r.hr, r.weekday)) (fun r => (r.cnt : ℚ)) t (h, w)

/-- The outputs of the filter-and-aggregate pipeline for one interaction:
both filtered tables and the four scorecard scalars (lines 61-76). -/
structure PipelineOut where
  f_hour : List HourRow
  f_day : List DayRow
  rentals_day : Option ℚ
  rentals_hour : Option ℚ
  users_day : Option ℚ
  users_hour : Option ℚ
deriving DecidableEq, Repr

/-- The filter-and-aggregate pipeline as one function of the loaded tables
and the three selection sets. -/
def pipeline (ss ws : List (Option String)) (ys : List Nat)
    (hour_data : List HourRow) (day_data : List DayRow) : PipelineOut :=
  let fh := filtered_hour_data ss ws ys hour_data
  let fd := filtered_day_data ss ws ys day_data
  { f_hour := fh, f_day := fd,
    rentals_day := avg_rentals_per_day fd,
    rentals_hour := avg_rentals_per_hour fh,
    users_day := avg_users_per_day fd,
    users_hour := avg_users_per_hour fh }

theorem lookupBucket_insertBucket {κ : Type} [DecidableEq κ]
    (b : List (κ × List ℚ)) (k k' : κ) (v : ℚ) :
    lookupBucket (insertBucket b k v) k' =
      if k = k' then some (((lookupBucket b k').getD []) ++ [v])
      else lookupBucket b k' := by
  induction b with
  | nil =>
    by_cases h : k = k' <;> simp [insertBucket, lookupBucket, h]
  | cons p rest ih =>
    obtain ⟨k₀, vs₀⟩ := p
    by_cases h0 : k₀ = k
    · subst h0
      by_cases h1 : k₀ = k' <;> simp [insertBucket, lookupBucket, h1]
    · by_cases h1 : k₀ = k'
      · subst h1
        have : ¬ k = k₀ := fun h => h0 h.symm
        simp [insertBucket, lookupBucket, h0, this]
      · simp [insertBucket, lookupBucket, h0, h1, ih]

theorem lookupBucket_foldl_insert {α κ : Type} [DecidableEq α] [DecidableEq κ]
    (key : α → κ) (val : α → ℚ) (t : List α) (b : List (κ × List ℚ)) (k : κ) :
    lookupBucket (t.foldl (fun b r => insertBucket b (key r) (val r)) b) k =
      match lookupBucket b k with
      | none =>
        if (t.filter fun r => decide (key r = k)) = [] then none
        else some ((t.filter fun r => decide (key r = k)).map val)
      | some vs => some (vs ++ (t.filter fun r => decide (key r = k)).map val) := by
  induction t generalizing b with
  | nil =>
    cases hb : lookupBucket b k <;> simp [hb]
  | cons r t ih =>
    rw [List.foldl_cons, ih, lookupBucket_insertBucket]
    by_cases hk : key r = k
    · simp only [hk, if_pos rfl, List.filter_cons, decide_eq_true rfl]
      cases hb : lookupBucket b k <;> simp [hb]
    · have hdec : (decide (key r = k)) = false := decide_eq_false hk
      simp only [if_neg hk, List.filter_cons, hdec]
      cases hb : lookupBucket b k <;> simp [hb]

theorem lookupBucket_groupVals {α κ : Type} [DecidableEq α] [DecidableEq κ]
    (key : α → κ) (val : α → ℚ) (t : List α) (k : κ) :
    lookupBucket (groupVals key val t) k =
      if (t.filter fun r => decide (key r = k)) = [] then none
      else some ((t.filter fun r => decide (key r = k)).map val) := by
  rw [groupVals, lookupBucket_foldl_insert]
  simp [lookupBucket]

theorem groupMeanAt_eq_filter_mean {α κ : Type} [DecidableEq α] [DecidableEq κ]
    (key : α → κ) (val : α → ℚ) (t : List α) (k : κ) :
    groupMeanAt key val t k =
      seriesMean ((t.filter fun r => decide (key r = k)).map val) := by
  rw [groupMeanAt, lookupBucket_groupVals]
  by_cases h : (t.filter fun r => decide (key r = k)) = []
  · simp [h, seriesMean]
  · simp [h]

theorem seriesMean_perm {xs ys : List ℚ} (h : xs.Perm ys) :
    seriesMean xs = seriesMean ys := by
  unfold seriesMean
  rw [h.length_eq, h.sum_eq]

/-- A concrete prepared hourly row: Fall 2011 with `cnt = 100` (the first
row of the spec's worked example). -/
def fallRow : HourRow :=
  { dteday := "2011-10-01", hr := 9, season := some "Fall",
    weathersit := some "Clear/Few Clouds", workingday := 1, weekday := 6,
    casual := 30, registered := 70, cnt := 100, year := 2011 }

/-- A concrete prepared hourly row: Spring 2012 with `cnt = 50` (the second
row of the spec's worked example). -/
def springRow : HourRow :=
  { dteday := "2012-04-01", hr := 17, season := some "Spring",
    weathersit := some "Mist/Cloudy", workingday := 0, weekday := 0,
    casual := 20, registered := 30, cnt := 50, year := 2012 }

/-- A concrete prepared daily row. -/
def sampleDayRow : DayRow :=
  { dteday := "2011-10-01", season := some "Fall",
    weathersit := some "Clear/Few Clouds", workingday := 1, weekday := 6,
    casual := 300, registered := 700, cnt := 1000, year := 2011 }

/-- C1: for every pair of loaded tables and every triple of selection sets,
every row of each filtered table has its season, weather label and year in
the corresponding selected set, and each filtered table has at most as many
rows as the unfiltered one. -/
theorem filter_sound (ss ws : List (Option String)) (ys : List Nat)
    (hd : List HourRow) (dd : List DayRow) :
    ((filtered_hour_data ss ws ys hd).length ≤ hd.length ∧
      ∀ r ∈ filtered_hour_data ss ws ys hd,
        r.season ∈ ss ∧ r.weathersit ∈ ws ∧ r.year ∈ ys) ∧
    ((filtered_day_data ss ws ys dd).length ≤ dd.length ∧
      ∀ r ∈ filtered_day_data ss ws ys dd,
        r.season ∈ ss ∧ r.weathersit ∈ ws ∧ r.year ∈ ys) := by
  refine ⟨⟨List.length_filter_le _ _, ?_⟩, ⟨List.length_filter_le _ _, ?_⟩⟩ <;>
  · intro r hr
    simp only [filtered_hour_data, filtered_day_data] at hr
    exact of_decide_eq_true ((List.mem_filter.mp hr).2)

theorem filter_sound_witness :
    fallRow.season ∈ [some "Fall"] ∧
    fallRow.weathersit ∈ [some "Clear/Few Clouds"] ∧
    fallRow.year ∈ [2011] :=
  (filter_sound [some "Fall"] [some "Clear/Few Clouds"] [2011] [fallRow] []).1.2
    fallRow (by decide)

/-- C3: an empty selection set on any one of the three dimensions makes both
filtered tables empty (and the filter is a total function, so no error is
raised). -/
theorem empty_selection_empty_filter (ss ws : List (Option String))
    (ys : List Nat) (hd : List HourRow) (dd : List DayRow)
    (h : ss = [] ∨ ws = [] ∨ ys = []) :
    filtered_hour_data ss ws ys hd = [] ∧
    filtered_day_data ss ws ys dd = [] := by
  constructor <;>
  · apply List.filter_eq_nil_iff.mpr
    intro r _ hcon
    rw [decide_eq_true_eq] at hcon
    rcases h with h | h | h <;> subst h
    · exact absurd hcon.1 (List.not_mem_nil _)
    · exact absurd hcon.2.1 (List.not_mem_nil _)
    · exact absurd hcon.2.2 (List.not_mem_nil _)

theorem empty_selection_empty_filter_witness :
    filtered_hour_data [] [some "Clear/Few Clouds"] [2011] [fallRow] = [] ∧
    filtered_day_data [] [some "Clear/Few Clouds"] [2011] [sampleDayRow] = [] :=
  empty_selection_empty_filter _ _ _ _ _ (Or.inl rfl)

/-- C6: when both filtered tables are empty, all four scorecard means are
the undefined value `none` (the NaN of a pandas mean over zero rows); the
computation is total, nothing is caught or reported. -/
theorem empty_filter_undefined_metrics (ss ws : List (Option String))
    (ys : List Nat) (hd : List HourRow) (dd : List DayRow)
    (hh : filtered_hour_data ss ws ys hd = [])
    (hdd : filtered_day_data ss ws ys dd = []) :
    avg_rentals_per_day (filtered_day_data ss ws ys dd) = none ∧
    avg_rentals_per_hour (filtered_hour_data ss ws ys hd) = none ∧
    avg_users_per_day (filtered_day_data ss ws ys dd) = none ∧
    avg_users_per_hour (filtered_hour_data ss ws ys hd) = none := by
  rw [hh, hdd]
  simp [avg_rentals_per_day, avg_rentals_per_hour, avg_users_per_day,
    avg_users_per_hour, seriesMean]

theorem empty_filter_undefined_metrics_witness :
    avg_rentals_per_day (filtered_day_data [] [] [] [sampleDayRow]) = none ∧
    avg_rentals_per_hour (filtered_hour_data [] [] [] [fallRow]) = none ∧
    avg_users_per_day (filtered_day_data [] [] [] [sampleDayRow]) = none ∧
    avg_users_per_hour (filtered_hour_data [] [] [] [fallRow]) = none :=
  empty_filter_undefined_metrics [] [] [] [fallRow] [sampleDayRow]
    (by decide) (by decide)

/-- C9: the filter-and-aggregate pipeline is deterministic: identical loaded
tables and identical selection sets give identical filtered tables and
identical scalar metrics. -/
theorem pipeline_deterministic (ss₁ ss₂ ws₁ ws₂ : List (Option String))
    (ys₁ ys₂ : List Nat) (hd₁ hd₂ : List HourRow) (dd₁ dd₂ : List DayRow)
    (hss : ss₁ = ss₂) (hws : ws₁ = ws₂) (hys : ys₁ = ys₂)
    (hhd : hd₁ = hd₂) (hdd : dd₁ = dd₂) :
    pipeline ss₁ ws₁ ys₁ hd₁ dd₁ = pipeline ss₂ ws₂ ys₂ hd₂ dd₂ := by
  subst hss hws hys hhd hdd
  rfl

theorem pipeline_deterministic_witness :
    pipeline [some "Fall"] [some "Clear/Few Clouds"] [2011]
        [fallRow, springRow] [sampleDayRow] =
      pipeline [some "Fall"] [some "Clear/Few Clouds"] [2011]
        [fallRow, springRow] [sampleDayRow] :=
  pipeline_deterministic _ _ _ _ _ _ _ _ _ _ rfl rfl rfl rfl rfl

/-- C10: when each selection set contains every distinct value its column
takes in a table, filtering that table is the identity: same rows, same
fields, same order. -/
theorem full_selection_identity (ss ws : List (Option String)) (ys : List Nat)
    (hd : List HourRow) (dd : List DayRow)
    (h1 : ∀ s ∈ hd.map (fun r => r.season), s ∈ ss)
    (h2 : ∀ x ∈ hd.map (fun r => r.weathersit), x ∈ ws)
    (h3 : ∀ y ∈ hd.map (fun r => r.year), y ∈ ys)
    (h4 : ∀ s ∈ dd.map (fun r => r.season), s ∈ ss)
    (h5 : ∀ x ∈ dd.map (fun r => r.weathersit), x ∈ ws)
    (h6 : ∀ y ∈ dd.map (fun r => r.year), y ∈ ys) :
    filtered_hour_data ss ws ys hd = hd ∧
    filtered_day_data ss ws ys dd = dd := by
  constructor
  · apply List.filter_eq_self.mpr
    intro r hr
    exact decide_eq_true ⟨h1 _ (List.mem_map_of_mem _ hr),
      h2 _ (List.mem_map_of_mem _ hr), h3 _ (List.mem_map_of_mem _ hr)⟩
  · apply List.filter_eq_self.mpr
    intro r hr
    exact decide_eq_true ⟨h4 _ (List.mem_map_of_mem _ hr),
      h5 _ (List.mem_map_of_mem _ hr), h6 _ (List.mem_map_of_mem _ hr)⟩

theorem full_selection_identity_witness :
    filtered_hour_data [some "Fall", some "Spring"]
        [some "Clear/Few Clouds", some "Mist/Cloudy"] [2011, 2012]
        [fallRow, springRow] = [fallRow, springRow] ∧
    filtered_day_data [some "Fall", some "Spring"]
        [some "Clear/Few Clouds", some "Mist/Cloudy"] [2011, 2012]
        [sampleDayRow] = [sampleDayRow] :=
  full_selection_identity _ _ _ _ _ (by decide) (by decide) (by decide)
    (by decide) (by decide) (by decide)

/-- C2: on any table all of whose rows satisfy `cnt = casual + registered`,
the mean of the row-wise `casual + registered` sums equals the mean of
`cnt`: the users metric and the rentals metric agree, per table. -/
theorem users_rentals_agree (dd : List DayRow) (hd : List HourRow)
    (h1 : ∀ r ∈ dd, r.cnt = r.casual + r.registered)
    (h2 : ∀ r ∈ hd, r.cnt = r.casual + r.registered) :
    avg_users_per_day dd = avg_rentals_per_day dd ∧
    avg_users_per_hour hd = avg_rentals_per_hour hd := by
  constructor
  · unfold avg_users_per_day avg_rentals_per_day
    congr 1
    apply List.map_congr_left
    intro r hr
    rw [h1 r hr]
    push_cast
    ring
  · unfold avg_users_per_hour avg_rentals_per_hour
    congr 1
    apply List.map_congr_left
    intro r hr
    rw [h2 r hr]
    push_cast
    ring

theorem users_rentals_agree_witness :
    avg_users_per_day [sampleDayRow] = avg_rentals_per_day [sampleDayRow] ∧
    avg_users_per_hour [fallRow, springRow] =
      avg_rentals_per_hour [fallRow, springRow] :=
  users_rentals_agree [sampleDayRow] [fallRow, springRow]
    (by decide) (by decide)

/-- C4: the pivot table read at cell `(h, w)` is exactly the mean of the
`cnt` values of those rows whose `hr` equals `h` and whose `weekday` equals
`w` (and the NaN `none` when no row matches). -/
theorem pivot_cell_is_filter_mean (t : List HourRow) (h w : Nat) :
    pivot_data t h w =
      seriesMean ((t.filter fun r => decide (r.hr = h ∧ r.weekday = w)).map
        fun r => (r.cnt : ℚ)) := by
  unfold pivot_data
  rw [groupMeanAt_eq_filter_mean]
  congr 2
  apply List.filter_congr
  intro r _
  rw [decide_eq_decide]
  constructor
  · intro hp
    exact ⟨congrArg Prod.fst hp, congrArg Prod.snd hp⟩
  · intro hp
    rw [hp.1, hp.2]

/-- C7: grouped-by-season means are order-independent: permuting the rows
of the hourly or the daily table leaves every grouped-by-season mean scalar
unchanged. -/
theorem season_means_order_independent (hd hd' : List HourRow)
    (dd dd' : List DayRow) (hp : hd.Perm hd') (hq : dd.Perm dd') :
    (∀ s, season_hourly hd' s = season_hourly hd s) ∧
    (∀ s, season_daily dd' s = season_daily dd s) := by
  constructor <;> intro s
  · unfold season_hourly
    rw [groupMeanAt_eq_filter_mean, groupMeanAt_eq_filter_mean]
    exact (seriesMean_perm ((hp.filter _).map _)).symm
  · unfold season_daily
    rw [groupMeanAt_eq_filter_mean, groupMeanAt_eq_filter_mean]
    exact (seriesMean_perm ((hq.filter _).map _)).symm

theorem season_means_order_independent_witness :
    season_hourly [springRow, fallRow] (some "Fall") =
      season_hourly [fallRow, springRow] (some "Fall") ∧
    season_daily [sampleDayRow] (some "Fall") =
      season_daily [sampleDayRow] (some "Fall") :=
  ⟨(season_means_order_independent [fallRow, springRow] [springRow, fallRow]
      [sampleDayRow] [sampleDayRow]
      (List.Perm.swap springRow fallRow []) (List.Perm.refl _)).1 (some "Fall"),
   (season_means_order_independent [fallRow, springRow] [springRow, fallRow]
      [sampleDayRow] [sampleDayRow]
      (List.Perm.swap springRow fallRow []) (List.Perm.refl _)).2 (some "Fall")⟩

/-- C8: on the two-row table of the spec's worked example, filtering with
season selection `{Fall}` (the other two selection sets containing the rows'
weather labels and years) keeps exactly the Fall 2011 row, and the mean of
`cnt` over the filtered table is 100. -/
theorem fall_example (ws : List (Option String)) (ys : List Nat)
    (hw1 : fallRow.weathersit ∈ ws) (_hw2 : springRow.weathersit ∈ ws)
    (hy1 : fallRow.year ∈ ys) (_hy2 : springRow.year ∈ ys) :
    filtered_hour_data [some "Fall"] ws ys [fallRow, springRow] = [fallRow] ∧
    avg_rentals_per_hour
      (filtered_hour_data [some "Fall"] ws ys [fallRow, springRow]) =
        some 100 := by
  have h1 : (decide (fallRow.season ∈ [some "Fall"] ∧
      fallRow.weathersit ∈ ws ∧ fallRow.year ∈ ys)) = true :=
    decide_eq_true ⟨by decide, hw1, hy1⟩
  have h2 : (decide (springRow.season ∈ [some "Fall"] ∧
      springRow.weathersit ∈ ws ∧ springRow.year ∈ ys)) = false :=
    decide_eq_false fun hc => by simpa [springRow] using hc.1
  have hf : filtered_hour_data [some "Fall"] ws ys [fallRow, springRow] =
      [fallRow] := by
    simp only [filtered_hour_data, List.filter_cons, List.filter_nil, h1, h2]
    rfl
  refine ⟨hf, ?_⟩
  rw [hf]
  simp [avg_rentals_per_hour, seriesMean, fallRow]

theorem fall_example_witness :
    filtered_hour_data [some "Fall"]
        [some "Clear/Few Clouds", some "Mist/Cloudy"] [2011, 2012]
        [fallRow, springRow] = [fallRow] ∧
    avg_rentals_per_hour
      (filtered_hour_data [some "Fall"]
        [some "Clear/Few Clouds", some "Mist/Cloudy"] [2011, 2012]
        [fallRow, springRow]) = some 100 :=
  fall_example [some "Clear/Few Clouds", some "Mist/Cloudy"] [2011, 2012]
    (by decide) (by decide) (by decide) (by decide)

/-- C5: the label mapper sends, in both tables, season codes 1-4 to
Spring/Summer/Fall/Winter and weather codes 1-4 to the four fixed weather
descriptions, and every code outside these mappings to the missing label
`none` — totally, never raising an error. -/
theorem label_mapping_spec :
    (∀ t : List RawHourRow,
      (prepare_hour_data t).map (fun r => r.season) =
        t.map (fun r => season_mapping r.season) ∧
      (prepare_hour_data t).map (fun r => r.weathersit) =
        t.map (fun r => weather_mapping r.weathersit)) ∧
    (∀ t : List RawDayRow,
      (prepare_day_data t).map (fun r => r.season) =
        t.map (fun r => season_mapping r.season) ∧
      (prepare_day_data t).map (fun r => r.weathersit) =
        t.map (fun r => weather_mapping r.weathersit)) ∧
    (∀ c : Nat, season_mapping c =
      if c = 1 then some "Spring" else if c = 2 then some "Summer"
      else if c = 3 then some "Fall" else if c = 4 then some "Winter"
      else none) ∧
    (∀ c : Nat, weather_mapping c =
      if c = 1 then some "Clear/Few Clouds"
      else if c = 2 then some "Mist/Cloudy"
      else if c = 3 then some "Light Snow/Rain"
      else if c = 4 then some "Heavy Rain/Snow"
      else none) := by
  refine ⟨fun t => ⟨?_, ?_⟩, fun t => ⟨?_, ?_⟩, fun c => ?_, fun c => ?_⟩
  · simp [prepare_hour_data, prepareHourRow, List.map_map, Function.comp]
  · simp [prepare_hour_data, prepareHourRow, List.map_map, Function.comp]
  · simp [prepare_day_data, prepareDayRow, List.map_map, Function.comp]
  · simp [prepare_day_data, prepareDayRow, List.map_map, Function.comp]
  · rcases c with _ | _ | _ | _ | _ | c
    · rfl
    · rfl
    · rfl
    · rfl
    · rfl
    · show none = _
      rw [if_neg (by omega), if_neg (by omega), if_neg (by omega),
        if_neg (by omega)]
  · rcases c with _ | _ | _ | _ | _ | c
    · rfl
    · rfl
    · rfl
    · rfl
    · rfl
    · show none = _
      rw [if_neg (by omega), if_neg (by omega), if_neg (by omega),
        if_neg (by omega)]

end Dashboard
